import Mathlib

/-!
Verification development for the `veml6040` auto-exposure driver.

The repository drives a four-channel RGBW light sensor over I2C and layers
an automatic-exposure control loop on top of it.  We give a shallow
embedding of the core: the integration-time ladder (`integration_time.rs`),
the register interface (`configuration.rs`, `reading.rs`) and the
auto-exposure controller (`wrapper.rs`).

Modelling conventions:
* machine integers (`u8`, `u16`, `i32`) are `Nat`/`Int` with explicit
  truncation (`% 256`) where the hardware constrains a value to a byte;
* `f32` sensitivity coefficients are modelled as exact rationals `ℚ`
  (the claims under consideration are about which coefficient is used and
  the multiplicative structure, not about rounding);
* the I2C bus is an oracle: a function from the index of the bus
  transaction (a running counter of operations performed so far) and the
  request made to the answer, either a transport error `E` or a pair of
  response bytes (writes ignore the bytes);
* Rust `panic!`/`unwrap` is modelled by returning `none` from an
  `Option`-valued function;
* the unbounded `loop` of `read_absolute_retry` is modelled with explicit
  fuel; `none` means the loop ran for more than `fuel` iterations.
-/

namespace Veml

/-- From `integration_time.rs`: the six integration-time settings. -/
inductive IntegrationTime where
  | _40ms
  | _80ms
  | _160ms
  | _320ms
  | _640ms
  | _1280ms
deriving DecidableEq, Repr

namespace IntegrationTime

/-- From `integration_time.rs`: duration of the integration time in ms. -/
def millis : IntegrationTime → Int
  | _40ms => 40
  | _80ms => 80
  | _160ms => 160
  | _320ms => 320
  | _640ms => 640
  | _1280ms => 1280

/-- From `integration_time.rs`: recommended waiting time in ms. -/
def waiting_time_millis (t : IntegrationTime) : Int :=
  t.millis + 40

/-- From `integration_time.rs`: sensitivity in lux per green count
(`f32` in the source, modelled as the exact rational denoted by the
source's decimal literal). -/
def sensitivity : IntegrationTime → ℚ
  | _40ms => 0.25168
  | _80ms => 0.12584
  | _160ms => 0.06292
  | _320ms => 0.03146
  | _640ms => 0.01573
  | _1280ms => 0.007865

/-- From `integration_time.rs`: bit pattern for the configuration register. -/
def bit_pattern : IntegrationTime → Nat
  | _40ms => 0x00
  | _80ms => 0x10
  | _160ms => 0x20
  | _320ms => 0x30
  | _640ms => 0x40
  | _1280ms => 0x50

/-- Modelled from the spec: `next_longer()` — the method `longer()` is called
from `wrapper.rs` but its definition is not among the provided source files;
the spec (§4.1) specifies it as "the next setting with strictly greater
duration, or none if already at the longest". -/
def longer : IntegrationTime → Option IntegrationTime
  | _40ms => some _80ms
  | _80ms => some _160ms
  | _160ms => some _320ms
  | _320ms => some _640ms
  | _640ms => some _1280ms
  | _1280ms => none

/-- Modelled from the spec: `next_shorter()` — the method `shorter()` is called
from `wrapper.rs` but its definition is not among the provided source files;
the spec (§4.1) specifies it as "the next setting with strictly smaller
duration, or none if already at the shortest". -/
def shorter : IntegrationTime → Option IntegrationTime
  | _40ms => none
  | _80ms => some _40ms
  | _160ms => some _80ms
  | _320ms => some _160ms
  | _640ms => some _320ms
  | _1280ms => some _640ms

end IntegrationTime

/-- Helper: a bitwise or of a byte shifted left by 8 with a value below 256
is the corresponding sum (the two operands occupy disjoint bit ranges). -/
theorem mul_two_pow_lor_eq_add (a b n : Nat) (hb : b < 2 ^ n) :
    (a * 2 ^ n) ||| b = a * 2 ^ n + b := by
  induction n generalizing a b with
  | zero =>
    have hb0 : b = 0 := by omega
    subst hb0
    simp
  | succ n ih =>
    have hdiv : Nat.div2 b < 2 ^ n := by
      have h2 := Nat.bodd_add_div2 b
      have : (Nat.bodd b).toNat ≤ 1 := Bool.toNat_le _
      have hpow : 2 ^ (n + 1) = 2 * 2 ^ n := by ring
      omega
    have h1 : a * 2 ^ (n + 1) = Nat.bit false (a * 2 ^ n) := by
      rw [Nat.bit_val]
      simp [Bool.toNat]
      ring
    calc (a * 2 ^ (n + 1)) ||| b
        = Nat.bit false (a * 2 ^ n) ||| Nat.bit (Nat.bodd b) (Nat.div2 b) := by
          rw [← h1, Nat.bit_decomp]
      _ = Nat.bit (Nat.bodd b) ((a * 2 ^ n) ||| Nat.div2 b) := by
          rw [Nat.lor_bit]
          simp
      _ = a * 2 ^ (n + 1) + b := by
          rw [ih _ _ hdiv, Nat.bit_val]
          have h2 := Nat.bodd_add_div2 b
          have h3 : a * 2 ^ (n + 1) = 2 * (a * 2 ^ n) := by ring
          omega

/-- Modelled from the spec: the error type of the sensor layer (`lib.rs` is
not among the provided source files; the spec, §7, has a single transport
error kind wrapping the bus error, matching the `Error::I2C` constructor
used throughout `configuration.rs` and `reading.rs`). -/
inductive Error (E : Type) where
  | I2C (e : E)
deriving DecidableEq, Repr

/-- Modelled from the spec: the `Auto`/`Manual` measurement mode (§4.2). -/
inductive MeasurementMode where
  | Auto
  | Manual
deriving DecidableEq, Repr

/-- Modelled from the spec: register addresses and the device address
(`lib.rs` is not among the provided source files; the spec, §6, fixes one
configuration register and four 16-bit data registers at a fixed device
address — only their distinctness matters to the core). -/
def DEVICE_ADDRESS : Nat := 0x10

namespace Register

/-- Modelled from the spec: configuration register address. -/
def CONFIG : Nat := 0x00

/-- Modelled from the spec: red data register address. -/
def R_DATA : Nat := 0x08

/-- Modelled from the spec: green data register address. -/
def G_DATA : Nat := 0x09

/-- Modelled from the spec: blue data register address. -/
def B_DATA : Nat := 0x0A

/-- Modelled from the spec: white data register address. -/
def W_DATA : Nat := 0x0B

end Register

namespace BitFlags

/-- Modelled from the spec: the shutdown bit of the configuration byte. -/
def SHUTDOWN : Nat := 0x01

/-- Modelled from the spec: the auto/manual (AF) bit of the configuration byte. -/
def AF : Nat := 0x02

/-- Modelled from the spec: the trigger bit of the configuration byte. -/
def TRIG : Nat := 0x04

end BitFlags

/-- Bitwise complement within a byte, modelling Rust's `!x` on `u8`
applied to a (byte-sized) mask. -/
def not8 (x : Nat) : Nat := 255 - x % 256

/-- A request made to the I2C bus: either a plain write of a byte sequence,
or a write-then-read of two bytes at a register (`reading.rs` always reads
exactly two bytes). -/
inductive BusReq where
  | write (addr : Nat) (bytes : List Nat)
  | writeRead (addr : Nat) (reg : Nat)
deriving DecidableEq, Repr

/-- The bus transport, as an oracle: given the index of the transaction
(how many bus operations happened before) and the request, it either fails
with a transport error `E` or answers with two bytes (ignored for writes). -/
structure Bus (E : Type) where
  resp : Nat → BusReq → Except E (Nat × Nat)

/-- From `lib.rs` (not provided) / the spec §4.2: the sensor register
interface state — the in-memory shadow of the configuration byte. -/
structure Veml6040 where
  config : Nat
deriving DecidableEq, Repr

/-- From `reading.rs`: the result of reading all four channels. -/
structure AllChannelMeasurement where
  red : Nat
  green : Nat
  blue : Nat
  white : Nat
deriving DecidableEq, Repr

namespace Veml6040

/-- From `configuration.rs`: `write_config` — writes
`[CONFIG, config, 0]` to the device and updates the shadow only on
success.  Returns the result, the new sensor state and the new bus
transaction counter. -/
def write_config (bus : Bus E) (n : Nat) (s : Veml6040) (config : Nat) :
    Except (Error E) Unit × Veml6040 × Nat :=
  match bus.resp n (BusReq.write DEVICE_ADDRESS [Register.CONFIG, config, 0]) with
  | Except.error e => (Except.error (Error.I2C e), s, n + 1)
  | Except.ok _ => (Except.ok (), { config := config }, n + 1)

/-- From `configuration.rs`: `enable` — clears the shutdown bit. -/
def enable (bus : Bus E) (n : Nat) (s : Veml6040) :
    Except (Error E) Unit × Veml6040 × Nat :=
  write_config bus n s (s.config &&& not8 BitFlags.SHUTDOWN)

/-- From `configuration.rs`: `disable` — sets the shutdown bit. -/
def disable (bus : Bus E) (n : Nat) (s : Veml6040) :
    Except (Error E) Unit × Veml6040 × Nat :=
  write_config bus n s (s.config ||| BitFlags.SHUTDOWN)

/-- From `configuration.rs`: the mask of the integration-time bits. -/
def IT_BITS : Nat := 0x70

/-- From `configuration.rs`: `set_integration_time`. -/
def set_integration_time (bus : Bus E) (n : Nat) (s : Veml6040)
    (it : IntegrationTime) : Except (Error E) Unit × Veml6040 × Nat :=
  write_config bus n s ((s.config &&& not8 IT_BITS) ||| it.bit_pattern)

/-- From `configuration.rs`: `set_measurement_mode`. -/
def set_measurement_mode (bus : Bus E) (n : Nat) (s : Veml6040)
    (mode : MeasurementMode) : Except (Error E) Unit × Veml6040 × Nat :=
  match mode with
  | MeasurementMode.Auto => write_config bus n s (s.config &&& not8 BitFlags.AF)
  | MeasurementMode.Manual => write_config bus n s (s.config ||| BitFlags.AF)

/-- From `configuration.rs`: `trigger_measurement` — writes the config byte
with the trigger bit set, deliberately without persisting it to the shadow. -/
def trigger_measurement (bus : Bus E) (n : Nat) (s : Veml6040) :
    Except (Error E) Unit × Nat :=
  match bus.resp n
      (BusReq.write DEVICE_ADDRESS [Register.CONFIG, s.config ||| BitFlags.TRIG, 0]) with
  | Except.error e => (Except.error (Error.I2C e), n + 1)
  | Except.ok _ => (Except.ok (), n + 1)

/-- From `reading.rs`: `read_channel` — write-read of two bytes at
`first_register`, assembled as `u16::from(data[1]) << 8 | u16::from(data[0])`
(bus bytes are constrained to a byte by the hardware, hence `% 256`). -/
def read_channel (bus : Bus E) (n : Nat) (first_register : Nat) :
    Except (Error E) Nat × Nat :=
  match bus.resp n (BusReq.writeRead DEVICE_ADDRESS first_register) with
  | Except.error e => (Except.error (Error.I2C e), n + 1)
  | Except.ok (b0, b1) => (Except.ok ((b1 % 256) <<< 8 ||| (b0 % 256)), n + 1)

/-- From `reading.rs`: `read_all_channels` — the four channels are read in
the order red, green, blue, white, failing on the first transport error. -/
def read_all_channels (bus : Bus E) (n : Nat) :
    Except (Error E) AllChannelMeasurement × Nat :=
  match read_channel bus n Register.R_DATA with
  | (Except.error e, n1) => (Except.error e, n1)
  | (Except.ok r, n1) =>
    match read_channel bus n1 Register.G_DATA with
    | (Except.error e, n2) => (Except.error e, n2)
    | (Except.ok g, n2) =>
      match read_channel bus n2 Register.B_DATA with
      | (Except.error e, n3) => (Except.error e, n3)
      | (Except.ok b, n3) =>
        match read_channel bus n3 Register.W_DATA with
        | (Except.error e, n4) => (Except.error e, n4)
        | (Except.ok w, n4) =>
          (Except.ok { red := r, green := g, blue := b, white := w }, n4)

end Veml6040

/-- From `wrapper.rs`: the calibrated measurement (`f32` fields modelled
as exact rationals). -/
structure AbsoluteMeasurementChannels where
  red : ℚ
  green : ℚ
  blue : ℚ
  white : ℚ
deriving DecidableEq, Repr

/-- From `wrapper.rs`: the error kinds of an absolute measurement. -/
inductive AbsoluteMeasurementError (E : Type) where
  | ReadErr (e : Error E)
  | TooDarkRelative
  | TooBrightRelative
  | TooDarkAbsolute
  | TooBrightAbsolute
deriving DecidableEq, Repr

/-- From `wrapper.rs`: `error_mapper` — wraps a sensor error as `ReadErr`. -/
def error_mapper (e : Error E) : AbsoluteMeasurementError E :=
  AbsoluteMeasurementError.ReadErr e

/-- From `wrapper.rs`. -/
def DARK_THRESHOLD_SOFT : Nat := 500

/-- From `wrapper.rs`. -/
def DARK_THRESHOLD_HARD : Nat := 10

/-- From `wrapper.rs`. -/
def BRIGHT_THRESHOLD_SOFT : Nat := 20000

/-- From `wrapper.rs`. -/
def BRIGHT_THRESHOLD_HARD : Nat := 64000

/-- From `wrapper.rs`: the auto-exposure controller state — the owned
sensor register interface and the active integration time. -/
structure AutoVeml6040 where
  sensor : Veml6040
  integration_time : IntegrationTime
deriving DecidableEq, Repr

namespace AutoVeml6040

/-- From `wrapper.rs`: `AutoVeml6040::new` — constructs the wrapper,
enables the sensor, sets the initial integration time (160 ms) and manual
measurement mode.  Each of the three configuration calls is `.unwrap()`ed
in the source, so a transport failure panics: modelled as `none`.
The initial configuration shadow is 0 (`Veml6040::new` is in the
not-provided `lib.rs`; a fresh shadow with all flag bits clear). -/
def new (bus : Bus E) (n : Nat) : Option (AutoVeml6040 × Nat) :=
  let ret : AutoVeml6040 :=
    { sensor := { config := 0 }, integration_time := IntegrationTime._160ms }
  match Veml6040.enable bus n ret.sensor with
  | (Except.error _, _, _) => none
  | (Except.ok _, s1, n1) =>
    match Veml6040.set_integration_time bus n1 s1 ret.integration_time with
    | (Except.error _, _, _) => none
    | (Except.ok _, s2, n2) =>
      match Veml6040.set_measurement_mode bus n2 s2 MeasurementMode.Manual with
      | (Except.error _, _, _) => none
      | (Except.ok _, s3, n3) =>
        some ({ sensor := s3, integration_time := ret.integration_time }, n3)

/-- From `wrapper.rs`: `read_absolute_once` — one trigger, the wait (which
has no observable effect in this model), one read of all four channels,
classification on the green count, the optional integration-time switch
(the controller field is assigned before the device write is attempted),
and the final outcome computed from the original green count. -/
def read_absolute_once (bus : Bus E) (n : Nat) (st : AutoVeml6040) :
    Except (AbsoluteMeasurementError E) AbsoluteMeasurementChannels ×
      AutoVeml6040 × Nat :=
  match Veml6040.trigger_measurement bus n st.sensor with
  | (Except.error e, n1) => (Except.error (error_mapper e), st, n1)
  | (Except.ok _, n1) =>
    match Veml6040.read_all_channels bus n1 with
    | (Except.error e, n2) => (Except.error (error_mapper e), st, n2)
    | (Except.ok reading, n2) =>
      let green := reading.green
      let new_integration_time_opt :=
        if green < DARK_THRESHOLD_SOFT then
          st.integration_time.longer
        else if green > BRIGHT_THRESHOLD_SOFT then
          st.integration_time.shorter
        else
          none
      let sensitivity := st.integration_time.sensitivity
      let afterSwitch :
          Except (AbsoluteMeasurementError E) Unit × AutoVeml6040 × Nat :=
        match new_integration_time_opt with
        | none => (Except.ok (), st, n2)
        | some new_integration_time =>
          let st1 := { st with integration_time := new_integration_time }
          match Veml6040.set_integration_time bus n2 st1.sensor
              st1.integration_time with
          | (Except.error e, s2, n3) =>
            (Except.error (error_mapper e), { st1 with sensor := s2 }, n3)
          | (Except.ok _, s2, n3) =>
            (Except.ok (), { st1 with sensor := s2 }, n3)
      match afterSwitch with
      | (Except.error e, st2, n3) => (Except.error e, st2, n3)
      | (Except.ok _, st2, n3) =>
        if green < DARK_THRESHOLD_HARD then
          if new_integration_time_opt = none then
            (Except.error AbsoluteMeasurementError.TooDarkAbsolute, st2, n3)
          else
            (Except.error AbsoluteMeasurementError.TooDarkRelative, st2, n3)
        else if green > BRIGHT_THRESHOLD_HARD then
          if new_integration_time_opt = none then
            (Except.error AbsoluteMeasurementError.TooBrightAbsolute, st2, n3)
          else
            (Except.error AbsoluteMeasurementError.TooBrightRelative, st2, n3)
        else
          (Except.ok
            { red := sensitivity * (reading.red : ℚ)
              green := sensitivity * (green : ℚ)
              blue := sensitivity * (reading.blue : ℚ)
              white := sensitivity * (reading.white : ℚ) }, st2, n3)

/-- From `wrapper.rs`: `read_absolute_retry` — the unbounded `loop` that
calls `read_absolute_once` and returns exactly on `Ok`, `TooDarkAbsolute`
or `TooBrightAbsolute`; every other outcome (including `ReadErr` and the
relative errors, via the `_ => {}` arm) continues the loop.  Modelled with
fuel: `none` means the loop ran for more than `fuel` iterations. -/
def read_absolute_retry (bus : Bus E) (fuel : Nat) (n : Nat)
    (st : AutoVeml6040) :
    Option (Except (AbsoluteMeasurementError E) AbsoluteMeasurementChannels ×
      AutoVeml6040 × Nat) :=
  match fuel with
  | 0 => none
  | fuel + 1 =>
    match read_absolute_once bus n st with
    | (Except.ok v, st1, n1) => some (Except.ok v, st1, n1)
    | (Except.error AbsoluteMeasurementError.TooDarkAbsolute, st1, n1) =>
      some (Except.error AbsoluteMeasurementError.TooDarkAbsolute, st1, n1)
    | (Except.error AbsoluteMeasurementError.TooBrightAbsolute, st1, n1) =>
      some (Except.error AbsoluteMeasurementError.TooBrightAbsolute, st1, n1)
    | (_, st1, n1) => read_absolute_retry bus fuel n1 st1

end AutoVeml6040

/-! ### Bus environments used to exercise the controller -/

/-- The two bytes the device sends for a 16-bit channel value `v`:
low byte first (the registers are little-endian). -/
def chanBytes (v : Nat) : Nat × Nat := (v % 256, v / 256)

/-- The value `read_channel` assembles from the bytes of `chanBytes v`. -/
def chanVal (v : Nat) : Nat := ((v / 256 % 256) <<< 8) ||| (v % 256 % 256)

/-- A bus on which every operation succeeds and the four data registers
hold the fixed channel values `r`, `g`, `b`, `w`. -/
def okBus (r g b w : Nat) : Bus Unit :=
  ⟨fun _ req =>
    match req with
    | BusReq.write _ _ => Except.ok (0, 0)
    | BusReq.writeRead _ reg =>
      if reg = Register.G_DATA then Except.ok (chanBytes g)
      else if reg = Register.R_DATA then Except.ok (chanBytes r)
      else if reg = Register.B_DATA then Except.ok (chanBytes b)
      else Except.ok (chanBytes w)⟩

/-- A bus on which every operation fails with a transport error. -/
def failBus : Bus Unit := ⟨fun _ _ => Except.error ()⟩

/-- A bus that behaves like `okBus r g b w` except that the `k`-th bus
transaction fails. -/
def failAtBus (k r g b w : Nat) : Bus Unit :=
  ⟨fun n req =>
    if n = k then Except.error () else (okBus r g b w).resp n req⟩

/-- Reassembling the two little-endian bytes of a 16-bit value gives the
value back. -/
theorem chanVal_eq (v : Nat) (hv : v < 65536) : chanVal v = v := by
  unfold chanVal
  have h1 : v / 256 % 256 = v / 256 := by omega
  have h2 : v % 256 % 256 = v % 256 := by omega
  rw [h1, h2, Nat.shiftLeft_eq]
  rw [mul_two_pow_lor_eq_add (v / 256) (v % 256) 8 (by omega)]
  omega

theorem trigger_okBus (r g b w n : Nat) (s : Veml6040) :
    Veml6040.trigger_measurement (okBus r g b w) n s = (Except.ok (), n + 1) :=
  rfl

theorem read_all_channels_okBus (r g b w n : Nat) :
    Veml6040.read_all_channels (okBus r g b w) n =
      (Except.ok
        { red := chanVal r, green := chanVal g,
          blue := chanVal b, white := chanVal w }, n + 4) :=
  rfl

theorem set_integration_time_okBus (r g b w n : Nat) (s : Veml6040)
    (it : IntegrationTime) :
    Veml6040.set_integration_time (okBus r g b w) n s it =
      (Except.ok (),
        { config := (s.config &&& not8 Veml6040.IT_BITS) ||| it.bit_pattern },
        n + 1) :=
  rfl

theorem trigger_failAt5 (r g b w : Nat) (s : Veml6040) :
    Veml6040.trigger_measurement (failAtBus 5 r g b w) 0 s =
      (Except.ok (), 1) :=
  rfl

theorem read_all_channels_failAt5 (r g b w : Nat) :
    Veml6040.read_all_channels (failAtBus 5 r g b w) 1 =
      (Except.ok
        { red := chanVal r, green := chanVal g,
          blue := chanVal b, white := chanVal w }, 5) :=
  rfl

theorem set_integration_time_failAt5 (r g b w : Nat) (s : Veml6040)
    (it : IntegrationTime) :
    Veml6040.set_integration_time (failAtBus 5 r g b w) 5 s it =
      (Except.error (Error.I2C ()), s, 6) :=
  rfl

namespace AutoVeml6040

/-! ### Evaluation lemmas for `read_absolute_once` in the classification
zones, on a bus where every operation succeeds -/

theorem once_okBus_mid (r g b w n : Nat) (st : AutoVeml6040)
    (hr : r < 65536) (hg : g < 65536) (hb : b < 65536) (hw : w < 65536)
    (h1 : ¬ g < 500) (h2 : ¬ g > 20000) :
    read_absolute_once (okBus r g b w) n st =
      (Except.ok
        { red := st.integration_time.sensitivity * (r : ℚ)
          green := st.integration_time.sensitivity * (g : ℚ)
          blue := st.integration_time.sensitivity * (b : ℚ)
          white := st.integration_time.sensitivity * (w : ℚ) }, st, n + 5) := by
  unfold read_absolute_once
  rw [trigger_okBus]
  dsimp only
  rw [read_all_channels_okBus]
  dsimp only
  simp only [chanVal_eq r hr, chanVal_eq g hg, chanVal_eq b hb, chanVal_eq w hw,
    DARK_THRESHOLD_SOFT, BRIGHT_THRESHOLD_SOFT, DARK_THRESHOLD_HARD,
    BRIGHT_THRESHOLD_HARD]
  rw [if_neg h1, if_neg h2]
  simp only []
  rw [if_neg (by omega : ¬ g < 10), if_neg (by omega : ¬ g > 64000)]

theorem once_okBus_darkHard (r g b w n : Nat) (st : AutoVeml6040)
    (s' : IntegrationTime) (hg : g < 10)
    (hl : st.integration_time.longer = some s') :
    read_absolute_once (okBus r g b w) n st =
      (Except.error AbsoluteMeasurementError.TooDarkRelative,
        { sensor :=
            { config := (st.sensor.config &&& not8 Veml6040.IT_BITS) |||
                s'.bit_pattern },
          integration_time := s' }, n + 6) := by
  unfold read_absolute_once
  rw [trigger_okBus]
  dsimp only
  rw [read_all_channels_okBus]
  dsimp only
  simp only [chanVal_eq g (by omega), DARK_THRESHOLD_SOFT, DARK_THRESHOLD_HARD]
  rw [if_pos (by omega : g < 500), hl]
  dsimp only
  rw [set_integration_time_okBus]
  dsimp only
  rw [if_pos (by omega : g < 10), if_neg (by simp : ¬ (some s' = none))]

theorem once_okBus_darkAbs (r g b w n : Nat) (st : AutoVeml6040)
    (hg : g < 10) (hl : st.integration_time.longer = none) :
    read_absolute_once (okBus r g b w) n st =
      (Except.error AbsoluteMeasurementError.TooDarkAbsolute, st, n + 5) := by
  unfold read_absolute_once
  rw [trigger_okBus]
  dsimp only
  rw [read_all_channels_okBus]
  dsimp only
  simp only [chanVal_eq g (by omega), DARK_THRESHOLD_SOFT, DARK_THRESHOLD_HARD]
  rw [if_pos (by omega : g < 500), hl]
  dsimp only
  rw [if_pos (by omega : g < 10), if_pos rfl]

theorem once_okBus_darkSoft (r g b w n : Nat) (st : AutoVeml6040)
    (s' : IntegrationTime)
    (hr : r < 65536) (hb : b < 65536) (hw : w < 65536)
    (hg1 : 10 ≤ g) (hg2 : g < 500)
    (hl : st.integration_time.longer = some s') :
    read_absolute_once (okBus r g b w) n st =
      (Except.ok
        { red := st.integration_time.sensitivity * (r : ℚ)
          green := st.integration_time.sensitivity * (g : ℚ)
          blue := st.integration_time.sensitivity * (b : ℚ)
          white := st.integration_time.sensitivity * (w : ℚ) },
        { sensor :=
            { config := (st.sensor.config &&& not8 Veml6040.IT_BITS) |||
                s'.bit_pattern },
          integration_time := s' }, n + 6) := by
  unfold read_absolute_once
  rw [trigger_okBus]
  dsimp only
  rw [read_all_channels_okBus]
  dsimp only
  simp only [chanVal_eq r hr, chanVal_eq g (by omega), chanVal_eq b hb,
    chanVal_eq w hw, DARK_THRESHOLD_SOFT, DARK_THRESHOLD_HARD,
    BRIGHT_THRESHOLD_HARD]
  rw [if_pos (by omega : g < 500), hl]
  dsimp only
  rw [set_integration_time_okBus]
  dsimp only
  rw [if_neg (by omega : ¬ g < 10), if_neg (by omega : ¬ g > 64000)]

theorem once_okBus_brightHard (r g b w n : Nat) (st : AutoVeml6040)
    (s' : IntegrationTime) (hg1 : g > 64000) (hg2 : g < 65536)
    (hs : st.integration_time.shorter = some s') :
    read_absolute_once (okBus r g b w) n st =
      (Except.error AbsoluteMeasurementError.TooBrightRelative,
        { sensor :=
            { config := (st.sensor.config &&& not8 Veml6040.IT_BITS) |||
                s'.bit_pattern },
          integration_time := s' }, n + 6) := by
  unfold read_absolute_once
  rw [trigger_okBus]
  dsimp only
  rw [read_all_channels_okBus]
  dsimp only
  simp only [chanVal_eq g hg2, DARK_THRESHOLD_SOFT, DARK_THRESHOLD_HARD,
    BRIGHT_THRESHOLD_SOFT, BRIGHT_THRESHOLD_HARD]
  rw [if_neg (by omega : ¬ g < 500), if_pos (by omega : g > 20000), hs]
  dsimp only
  rw [set_integration_time_okBus]
  dsimp only
  rw [if_neg (by omega : ¬ g < 10), if_pos (by omega : g > 64000),
    if_neg (by simp : ¬ (some s' = none))]

theorem once_okBus_brightAbs (r g b w n : Nat) (st : AutoVeml6040)
    (hg1 : g > 64000) (hg2 : g < 65536)
    (hs : st.integration_time.shorter = none) :
    read_absolute_once (okBus r g b w) n st =
      (Except.error AbsoluteMeasurementError.TooBrightAbsolute, st, n + 5) := by
  unfold read_absolute_once
  rw [trigger_okBus]
  dsimp only
  rw [read_all_channels_okBus]
  dsimp only
  simp only [chanVal_eq g hg2, DARK_THRESHOLD_SOFT, DARK_THRESHOLD_HARD,
    BRIGHT_THRESHOLD_SOFT, BRIGHT_THRESHOLD_HARD]
  rw [if_neg (by omega : ¬ g < 500), if_pos (by omega : g > 20000), hs]
  dsimp only
  rw [if_neg (by omega : ¬ g < 10), if_pos (by omega : g > 64000), if_pos rfl]

theorem once_okBus_brightSoft (r g b w n : Nat) (st : AutoVeml6040)
    (s' : IntegrationTime)
    (hr : r < 65536) (hb : b < 65536) (hw : w < 65536)
    (hg1 : 20000 < g) (hg2 : g ≤ 64000)
    (hs : st.integration_time.shorter = some s') :
    read_absolute_once (okBus r g b w) n st =
      (Except.ok
        { red := st.integration_time.sensitivity * (r : ℚ)
          green := st.integration_time.sensitivity * (g : ℚ)
          blue := st.integration_time.sensitivity * (b : ℚ)
          white := st.integration_time.sensitivity * (w : ℚ) },
        { sensor :=
            { config := (st.sensor.config &&& not8 Veml6040.IT_BITS) |||
                s'.bit_pattern },
          integration_time := s' }, n + 6) := by
  unfold read_absolute_once
  rw [trigger_okBus]
  dsimp only
  rw [read_all_channels_okBus]
  dsimp only
  simp only [chanVal_eq r hr, chanVal_eq g (by omega), chanVal_eq b hb,
    chanVal_eq w hw, DARK_THRESHOLD_SOFT, DARK_THRESHOLD_HARD,
    BRIGHT_THRESHOLD_SOFT, BRIGHT_THRESHOLD_HARD]
  rw [if_neg (by omega : ¬ g < 500), if_pos (by omega : g > 20000), hs]
  dsimp only
  rw [set_integration_time_okBus]
  dsimp only
  rw [if_neg (by omega : ¬ g < 10), if_neg (by omega : ¬ g > 64000)]

/-! ### The retry loop under a permanently dark environment -/

theorem retry_fuel_le (bus : Bus Unit) : ∀ fuel fuel' n : Nat, ∀ st x,
    fuel ≤ fuel' →
    read_absolute_retry bus fuel n st = some x →
    read_absolute_retry bus fuel' n st = some x := by
  intro fuel
  induction fuel with
  | zero =>
    intro fuel' n st x _ h
    simp [read_absolute_retry] at h
  | succ f ih =>
    intro fuel' n st x hle h
    obtain ⟨f', rfl⟩ : ∃ f', fuel' = f' + 1 := ⟨fuel' - 1, by omega⟩
    simp only [read_absolute_retry] at h ⊢
    rcases honce : read_absolute_once bus n st with ⟨res, st1, n1⟩
    rw [honce] at h
    rcases res with err | v
    case ok => exact h
    case error =>
      cases err with
      | ReadErr e => exact ih f' n1 st1 x (by omega) h
      | TooDarkRelative => exact ih f' n1 st1 x (by omega) h
      | TooBrightRelative => exact ih f' n1 st1 x (by omega) h
      | TooDarkAbsolute => exact h
      | TooBrightAbsolute => exact h

theorem retry_dark_1280 (r g b w cfg n : Nat) (hg : g < 10) :
    ∃ cfg' n', read_absolute_retry (okBus r g b w) 1 n
        { sensor := { config := cfg }, integration_time := IntegrationTime._1280ms } =
      some (Except.error AbsoluteMeasurementError.TooDarkAbsolute,
        { sensor := { config := cfg' },
          integration_time := IntegrationTime._1280ms }, n') := by
  show ∃ cfg' n', read_absolute_retry (okBus r g b w) (0 + 1) n _ = _
  simp only [read_absolute_retry]
  rw [once_okBus_darkAbs r g b w n
    { sensor := { config := cfg }, integration_time := IntegrationTime._1280ms }
    hg rfl]
  exact ⟨cfg, n + 5, rfl⟩

theorem retry_dark_640 (r g b w cfg n : Nat) (hg : g < 10) :
    ∃ cfg' n', read_absolute_retry (okBus r g b w) 2 n
        { sensor := { config := cfg }, integration_time := IntegrationTime._640ms } =
      some (Except.error AbsoluteMeasurementError.TooDarkAbsolute,
        { sensor := { config := cfg' },
          integration_time := IntegrationTime._1280ms }, n') := by
  show ∃ cfg' n', read_absolute_retry (okBus r g b w) (1 + 1) n _ = _
  simp only [read_absolute_retry]
  rw [once_okBus_darkHard r g b w n
    { sensor := { config := cfg }, integration_time := IntegrationTime._640ms }
    IntegrationTime._1280ms hg rfl]
  exact retry_dark_1280 r g b w _ _ hg

theorem retry_dark_320 (r g b w cfg n : Nat) (hg : g < 10) :
    ∃ cfg' n', read_absolute_retry (okBus r g b w) 3 n
        { sensor := { config := cfg }, integration_time := IntegrationTime._320ms } =
      some (Except.error AbsoluteMeasurementError.TooDarkAbsolute,
        { sensor := { config := cfg' },
          integration_time := IntegrationTime._1280ms }, n') := by
  show ∃ cfg' n', read_absolute_retry (okBus r g b w) (2 + 1) n _ = _
  simp only [read_absolute_retry]
  rw [once_okBus_darkHard r g b w n
    { sensor := { config := cfg }, integration_time := IntegrationTime._320ms }
    IntegrationTime._640ms hg rfl]
  exact retry_dark_640 r g b w _ _ hg

theorem retry_dark_160 (r g b w cfg n : Nat) (hg : g < 10) :
    ∃ cfg' n', read_absolute_retry (okBus r g b w) 4 n
        { sensor := { config := cfg }, integration_time := IntegrationTime._160ms } =
      some (Except.error AbsoluteMeasurementError.TooDarkAbsolute,
        { sensor := { config := cfg' },
          integration_time := IntegrationTime._1280ms }, n') := by
  show ∃ cfg' n', read_absolute_retry (okBus r g b w) (3 + 1) n _ = _
  simp only [read_absolute_retry]
  rw [once_okBus_darkHard r g b w n
    { sensor := { config := cfg }, integration_time := IntegrationTime._160ms }
    IntegrationTime._320ms hg rfl]
  exact retry_dark_320 r g b w _ _ hg

theorem retry_dark_80 (r g b w cfg n : Nat) (hg : g < 10) :
    ∃ cfg' n', read_absolute_retry (okBus r g b w) 5 n
        { sensor := { config := cfg }, integration_time := IntegrationTime._80ms } =
      some (Except.error AbsoluteMeasurementError.TooDarkAbsolute,
        { sensor := { config := cfg' },
          integration_time := IntegrationTime._1280ms }, n') := by
  show ∃ cfg' n', read_absolute_retry (okBus r g b w) (4 + 1) n _ = _
  simp only [read_absolute_retry]
  rw [once_okBus_darkHard r g b w n
    { sensor := { config := cfg }, integration_time := IntegrationTime._80ms }
    IntegrationTime._160ms hg rfl]
  exact retry_dark_160 r g b w _ _ hg

theorem retry_dark_40 (r g b w cfg n : Nat) (hg : g < 10) :
    ∃ cfg' n', read_absolute_retry (okBus r g b w) 6 n
        { sensor := { config := cfg }, integration_time := IntegrationTime._40ms } =
      some (Except.error AbsoluteMeasurementError.TooDarkAbsolute,
        { sensor := { config := cfg' },
          integration_time := IntegrationTime._1280ms }, n') := by
  show ∃ cfg' n', read_absolute_retry (okBus r g b w) (5 + 1) n _ = _
  simp only [read_absolute_retry]
  rw [once_okBus_darkHard r g b w n
    { sensor := { config := cfg }, integration_time := IntegrationTime._40ms }
    IntegrationTime._80ms hg rfl]
  exact retry_dark_80 r g b w _ _ hg

theorem retry_dark_any (r g b w cfg n : Nat) (s : IntegrationTime)
    (hg : g < 10) :
    ∃ cfg' n', read_absolute_retry (okBus r g b w) 6 n
        { sensor := { config := cfg }, integration_time := s } =
      some (Except.error AbsoluteMeasurementError.TooDarkAbsolute,
        { sensor := { config := cfg' },
          integration_time := IntegrationTime._1280ms }, n') := by
  cases s
  case _40ms => exact retry_dark_40 r g b w cfg n hg
  case _80ms =>
    obtain ⟨c', n', h⟩ := retry_dark_80 r g b w cfg n hg
    exact ⟨c', n', retry_fuel_le _ 5 6 n _ _ (by omega) h⟩
  case _160ms =>
    obtain ⟨c', n', h⟩ := retry_dark_160 r g b w cfg n hg
    exact ⟨c', n', retry_fuel_le _ 4 6 n _ _ (by omega) h⟩
  case _320ms =>
    obtain ⟨c', n', h⟩ := retry_dark_320 r g b w cfg n hg
    exact ⟨c', n', retry_fuel_le _ 3 6 n _ _ (by omega) h⟩
  case _640ms =>
    obtain ⟨c', n', h⟩ := retry_dark_640 r g b w cfg n hg
    exact ⟨c', n', retry_fuel_le _ 2 6 n _ _ (by omega) h⟩
  case _1280ms =>
    obtain ⟨c', n', h⟩ := retry_dark_1280 r g b w cfg n hg
    exact ⟨c', n', retry_fuel_le _ 1 6 n _ _ (by omega) h⟩

end AutoVeml6040

end Veml

namespace Veml

/-- C1: the claim says a transport error from `read_absolute_once` is
returned by `read_absolute_retry` immediately, without another call.  The
code does the opposite: the `_ => {}` arm of the match catches `ReadErr`
and loops.  On a bus whose operations always fail, the first call returns
`ReadErr` and the retry loop never returns (for every fuel bound it is
still running). -/
theorem claim_C1 (fuel n : Nat) (st : AutoVeml6040) :
    (AutoVeml6040.read_absolute_once failBus n st).1 =
      Except.error (AbsoluteMeasurementError.ReadErr (Error.I2C ())) ∧
    AutoVeml6040.read_absolute_retry failBus fuel n st = none := by
  constructor
  · rfl
  · induction fuel generalizing n st with
    | zero => rfl
    | succ f ih =>
      show AutoVeml6040.read_absolute_retry failBus (f + 1) n st = none
      simp only [AutoVeml6040.read_absolute_retry]
      exact ih (n + 1) st

/-- C2, counterexample: the claim says no operation panics, including for
transport failures during construction; but `AutoVeml6040::new` unwraps the
results of its three configuration writes, so on a bus whose operations
fail, construction panics (modelled as `none`). -/
theorem claim_C2_counterexample : AutoVeml6040.new failBus 0 = none := rfl

/-- C2, amended: construction excepted, failures are error values, and
`new` itself completes without panicking whenever no bus operation fails;
if an initialization write fails, `new` panics (see the counterexample). -/
theorem claim_C2 {E : Type} (bus : Bus E) (n : Nat)
    (h : ∀ (k : Nat) (q : BusReq) (e : E), bus.resp k q ≠ Except.error e) :
    (AutoVeml6040.new bus n).isSome = true := by
  unfold AutoVeml6040.new Veml6040.enable Veml6040.set_integration_time
    Veml6040.set_measurement_mode Veml6040.write_config
  dsimp only
  rcases h1 : bus.resp n (BusReq.write DEVICE_ADDRESS
      [Register.CONFIG, 0 &&& not8 BitFlags.SHUTDOWN, 0]) with e | v1
  · exact absurd h1 (h _ _ _)
  · dsimp only
    rcases h2 : bus.resp (n + 1) (BusReq.write DEVICE_ADDRESS
        [Register.CONFIG,
          0 &&& not8 BitFlags.SHUTDOWN &&& not8 Veml6040.IT_BITS |||
            IntegrationTime._160ms.bit_pattern, 0]) with e | v2
    · exact absurd h2 (h _ _ _)
    · dsimp only
      rcases h3 : bus.resp (n + 1 + 1) (BusReq.write DEVICE_ADDRESS
          [Register.CONFIG,
            (0 &&& not8 BitFlags.SHUTDOWN &&& not8 Veml6040.IT_BITS |||
              IntegrationTime._160ms.bit_pattern) ||| BitFlags.AF, 0]) with e | v3
      · exact absurd h3 (h _ _ _)
      · rfl

/-- Witness for C2 at a concrete all-ok bus. -/
theorem claim_C2_witness : (AutoVeml6040.new (okBus 0 0 0 0) 0).isSome = true := by
  apply claim_C2
  intro k q e
  cases q with
  | write addr bytes => simp [okBus]
  | writeRead addr reg =>
    simp only [okBus]
    split_ifs <;> simp

/-- C3: from every starting setting, on a bus where every operation
succeeds and every read has a green count below the hard-dark threshold 10,
the retry loop terminates with `TooDarkAbsolute` within 6 calls to
`read_absolute_once` (at most 5 re-invocations past the first), the active
setting having walked the ladder to the longest setting (1280 ms). -/
theorem claim_C3 (r g b w cfg n : Nat) (s : IntegrationTime) (hg : g < 10) :
    ∃ cfg' n', AutoVeml6040.read_absolute_retry (okBus r g b w) 6 n
        { sensor := { config := cfg }, integration_time := s } =
      some (Except.error AbsoluteMeasurementError.TooDarkAbsolute,
        { sensor := { config := cfg' },
          integration_time := IntegrationTime._1280ms }, n') :=
  AutoVeml6040.retry_dark_any r g b w cfg n s hg

/-- Witness for C3 with green count 5 from the shortest setting. -/
theorem claim_C3_witness :
    (5 : Nat) < 10 ∧
    ∃ cfg' n', AutoVeml6040.read_absolute_retry (okBus 100 5 100 100) 6 0
        { sensor := { config := 34 }, integration_time := IntegrationTime._40ms } =
      some (Except.error AbsoluteMeasurementError.TooDarkAbsolute,
        { sensor := { config := cfg' },
          integration_time := IntegrationTime._1280ms }, n') :=
  ⟨by decide, claim_C3 100 5 100 100 34 0 IntegrationTime._40ms (by decide)⟩

/-- C4: on a successful read with green count below 10, if the active
setting is the longest then `read_absolute_once` returns `TooDarkAbsolute`
and leaves the setting unchanged; if a next-longer setting exists it
returns `TooDarkRelative`, the active setting becomes the next-longer one
and its bit pattern is written to the device (visible in the configuration
shadow, which is only updated after a successful write); and a next-longer
setting exists exactly when the setting is not the longest. -/
theorem claim_C4 (r g b w cfg n : Nat) (s : IntegrationTime) (hg : g < 10) :
    (s = IntegrationTime._1280ms →
      AutoVeml6040.read_absolute_once (okBus r g b w) n
          { sensor := { config := cfg }, integration_time := s } =
        (Except.error AbsoluteMeasurementError.TooDarkAbsolute,
          { sensor := { config := cfg }, integration_time := s }, n + 5)) ∧
    (∀ s', s.longer = some s' →
      AutoVeml6040.read_absolute_once (okBus r g b w) n
          { sensor := { config := cfg }, integration_time := s } =
        (Except.error AbsoluteMeasurementError.TooDarkRelative,
          { sensor :=
              { config := (cfg &&& not8 Veml6040.IT_BITS) ||| s'.bit_pattern },
            integration_time := s' }, n + 6)) ∧
    (s ≠ IntegrationTime._1280ms → ∃ s', s.longer = some s') := by
  refine ⟨?_, ?_, ?_⟩
  · intro hs
    subst hs
    exact AutoVeml6040.once_okBus_darkAbs r g b w n _ hg rfl
  · intro s' hl
    exact AutoVeml6040.once_okBus_darkHard r g b w n _ s' hg hl
  · cases s <;> intro hne
    case _1280ms => exact absurd rfl hne
    all_goals exact ⟨_, rfl⟩

/-- Witness for C4 with green count 5 at the shortest setting. -/
theorem claim_C4_witness :
    (5 : Nat) < 10 ∧
    AutoVeml6040.read_absolute_once (okBus 100 5 100 100) 0
        { sensor := { config := 34 }, integration_time := IntegrationTime._40ms } =
      (Except.error AbsoluteMeasurementError.TooDarkRelative,
        { sensor :=
            { config := (34 &&& not8 Veml6040.IT_BITS) |||
              IntegrationTime._80ms.bit_pattern },
          integration_time := IntegrationTime._80ms }, 0 + 6) :=
  ⟨by decide,
    (claim_C4 100 5 100 100 34 0 IntegrationTime._40ms (by decide)).2.1
      IntegrationTime._80ms rfl⟩

/-- C5: on a successful read whose green count lies in the closed soft
window 500 ≤ g ≤ 20000 (both soft comparisons are strict, so the bounds
are inclusive), `read_absolute_once` succeeds, the active setting and the
configuration shadow are unchanged, and each returned channel equals the
active setting's sensitivity times the raw count — in particular the green
value is sensitivity * g, and g = 500 causes no adjustment. -/
theorem claim_C5 (r g b w cfg n : Nat) (s : IntegrationTime)
    (hr : r < 65536) (hb : b < 65536) (hw : w < 65536)
    (hg1 : 500 ≤ g) (hg2 : g ≤ 20000) :
    AutoVeml6040.read_absolute_once (okBus r g b w) n
        { sensor := { config := cfg }, integration_time := s } =
      (Except.ok
        { red := s.sensitivity * (r : ℚ)
          green := s.sensitivity * (g : ℚ)
          blue := s.sensitivity * (b : ℚ)
          white := s.sensitivity * (w : ℚ) },
        { sensor := { config := cfg }, integration_time := s }, n + 5) :=
  AutoVeml6040.once_okBus_mid r g b w n _ hr (by omega) hb hw
    (by omega) (by omega)

/-- Witness for C5 at the boundary green count 500 (no adjustment). -/
theorem claim_C5_witness :
    ((500 : Nat) ≤ 500 ∧ (500 : Nat) ≤ 20000) ∧
    AutoVeml6040.read_absolute_once (okBus 100 500 100 100) 0
        { sensor := { config := 34 }, integration_time := IntegrationTime._160ms } =
      (Except.ok
        { red := IntegrationTime._160ms.sensitivity * (100 : ℚ)
          green := IntegrationTime._160ms.sensitivity * (500 : ℚ)
          blue := IntegrationTime._160ms.sensitivity * (100 : ℚ)
          white := IntegrationTime._160ms.sensitivity * (100 : ℚ) },
        { sensor := { config := 34 },
          integration_time := IntegrationTime._160ms }, 0 + 5) :=
  ⟨⟨by decide, by decide⟩,
    claim_C5 100 500 100 100 34 0 IntegrationTime._160ms
      (by decide) (by decide) (by decide) (by decide) (by decide)⟩

/-- C6, counterexample: a green count of 70000 can never be observed.  The
channel registers are 16-bit: even on a bus whose green register nominally
holds 70000, the two bytes the device can transmit reassemble to
70000 mod 65536 = 4464, not 70000 — the claim's scenario has no execution. -/
theorem claim_C6_counterexample :
    Veml6040.read_channel (okBus 0 70000 0 0) 0 Register.G_DATA =
      (Except.ok 4464, 1) ∧ (4464 : Nat) ≠ 70000 :=
  ⟨rfl, by decide⟩

/-- C6, amended: a green count strictly above hard-bright (64000) — which
is necessarily below 65536, since the count is assembled from two bytes —
at the shortest setting makes `read_absolute_once` return
`TooBrightAbsolute` with the setting unchanged; the claim's green count of
70000 is not representable in the 16-bit channel reading. -/
theorem claim_C6 (r g b w cfg n : Nat) (hg1 : 64000 < g) (hg2 : g < 65536) :
    AutoVeml6040.read_absolute_once (okBus r g b w) n
        { sensor := { config := cfg }, integration_time := IntegrationTime._40ms } =
      (Except.error AbsoluteMeasurementError.TooBrightAbsolute,
        { sensor := { config := cfg },
          integration_time := IntegrationTime._40ms }, n + 5) :=
  AutoVeml6040.once_okBus_brightAbs r g b w n _ hg1 hg2 rfl

/-- Witness for C6 with the representable green count 65000. -/
theorem claim_C6_witness :
    ((64000 : Nat) < 65000 ∧ (65000 : Nat) < 65536) ∧
    AutoVeml6040.read_absolute_once (okBus 100 65000 100 100) 0
        { sensor := { config := 2 }, integration_time := IntegrationTime._40ms } =
      (Except.error AbsoluteMeasurementError.TooBrightAbsolute,
        { sensor := { config := 2 },
          integration_time := IntegrationTime._40ms }, 0 + 5) :=
  ⟨⟨by decide, by decide⟩,
    claim_C6 100 65000 100 100 2 0 (by decide) (by decide)⟩

/-- C7: on a successful read whose green count is between a soft and the
corresponding hard threshold (10 ≤ g < 500, or 20000 < g ≤ 64000) while a
setting in the needed direction exists, `read_absolute_once` returns a
successful reading whose four values use the sensitivity of the setting in
effect during acquisition (captured before the adjustment), and the active
setting is stepped one position in that direction, its bit pattern pushed
to the device. -/
theorem claim_C7 (r g b w cfg n : Nat) (s s' : IntegrationTime)
    (hr : r < 65536) (hb : b < 65536) (hw : w < 65536)
    (h : (10 ≤ g ∧ g < 500 ∧ s.longer = some s') ∨
         (20000 < g ∧ g ≤ 64000 ∧ s.shorter = some s')) :
    AutoVeml6040.read_absolute_once (okBus r g b w) n
        { sensor := { config := cfg }, integration_time := s } =
      (Except.ok
        { red := s.sensitivity * (r : ℚ)
          green := s.sensitivity * (g : ℚ)
          blue := s.sensitivity * (b : ℚ)
          white := s.sensitivity * (w : ℚ) },
        { sensor :=
            { config := (cfg &&& not8 Veml6040.IT_BITS) ||| s'.bit_pattern },
          integration_time := s' }, n + 6) := by
  rcases h with ⟨h1, h2, hl⟩ | ⟨h1, h2, hs⟩
  · exact AutoVeml6040.once_okBus_darkSoft r g b w n _ s' hr hb hw h1 h2 hl
  · exact AutoVeml6040.once_okBus_brightSoft r g b w n _ s' hr hb hw h1 h2 hs

/-- Witness for C7 with green count 300 at the 160 ms setting. -/
theorem claim_C7_witness :
    ((10 : Nat) ≤ 300 ∧ (300 : Nat) < 500 ∧
      IntegrationTime._160ms.longer = some IntegrationTime._320ms) ∧
    AutoVeml6040.read_absolute_once (okBus 100 300 100 100) 0
        { sensor := { config := 34 }, integration_time := IntegrationTime._160ms } =
      (Except.ok
        { red := IntegrationTime._160ms.sensitivity * (100 : ℚ)
          green := IntegrationTime._160ms.sensitivity * (300 : ℚ)
          blue := IntegrationTime._160ms.sensitivity * (100 : ℚ)
          white := IntegrationTime._160ms.sensitivity * (100 : ℚ) },
        { sensor :=
            { config := (34 &&& not8 Veml6040.IT_BITS) |||
              IntegrationTime._320ms.bit_pattern },
          integration_time := IntegrationTime._320ms }, 0 + 6) :=
  ⟨⟨by decide, by decide, rfl⟩,
    claim_C7 100 300 100 100 34 0 IntegrationTime._160ms IntegrationTime._320ms
      (by decide) (by decide) (by decide)
      (Or.inl ⟨by decide, by decide, rfl⟩)⟩

/-- C8: for each of the six settings, the recommended waiting time equals
the setting's duration plus 40 ms. -/
theorem claim_C8 (t : IntegrationTime) :
    t.waiting_time_millis = t.millis + 40 :=
  rfl

/-- C9: across the six settings ordered by increasing duration, the
sensitivity coefficient is strictly decreasing. -/
theorem claim_C9 (a b : IntegrationTime) (h : a.millis < b.millis) :
    b.sensitivity < a.sensitivity := by
  cases a <;> cases b <;> first
    | (exfalso; revert h; decide)
    | (norm_num [IntegrationTime.sensitivity])

/-- Witness for C9 at the pair of the two shortest settings. -/
theorem claim_C9_witness :
    IntegrationTime._40ms.millis < IntegrationTime._80ms.millis ∧
    IntegrationTime._80ms.sensitivity < IntegrationTime._40ms.sensitivity :=
  ⟨by decide, claim_C9 IntegrationTime._40ms IntegrationTime._80ms (by decide)⟩

/-- C10: when a candidate adjustment exists, the controller assigns its
`integration_time` field before attempting the device write; if that write
fails, the call returns `ReadErr` with the controller already on the new
setting while the configuration shadow (the device's configured setting)
is unchanged — the state is not rolled back and the two diverge. -/
theorem claim_C10 (r g b w cfg : Nat) (s s' : IntegrationTime)
    (h : (g < 500 ∧ g < 65536 ∧ s.longer = some s') ∨
         (20000 < g ∧ g < 65536 ∧ s.shorter = some s')) :
    AutoVeml6040.read_absolute_once (failAtBus 5 r g b w) 0
        { sensor := { config := cfg }, integration_time := s } =
      (Except.error (AbsoluteMeasurementError.ReadErr (Error.I2C ())),
        { sensor := { config := cfg }, integration_time := s' }, 6) := by
  unfold AutoVeml6040.read_absolute_once
  rw [trigger_failAt5]
  dsimp only
  rw [read_all_channels_failAt5]
  dsimp only
  rcases h with ⟨h1, h2, hl⟩ | ⟨h1, h2, hs⟩
  · simp only [chanVal_eq g h2, DARK_THRESHOLD_SOFT]
    rw [if_pos (by omega : g < 500), hl]
    dsimp only
    rw [set_integration_time_failAt5]
    rfl
  · simp only [chanVal_eq g h2, DARK_THRESHOLD_SOFT, BRIGHT_THRESHOLD_SOFT]
    rw [if_neg (by omega : ¬ g < 500), if_pos (by omega : g > 20000), hs]
    dsimp only
    rw [set_integration_time_failAt5]
    rfl

/-- Witness for C10: dark reading at 160 ms with the sixth bus
transaction (the integration-time write) failing. -/
theorem claim_C10_witness :
    ((5 : Nat) < 500 ∧ (5 : Nat) < 65536 ∧
      IntegrationTime._160ms.longer = some IntegrationTime._320ms) ∧
    AutoVeml6040.read_absolute_once (failAtBus 5 100 5 100 100) 0
        { sensor := { config := 34 }, integration_time := IntegrationTime._160ms } =
      (Except.error (AbsoluteMeasurementError.ReadErr (Error.I2C ())),
        { sensor := { config := 34 },
          integration_time := IntegrationTime._320ms }, 6) :=
  ⟨⟨by decide, by decide, rfl⟩,
    claim_C10 100 5 100 100 34 IntegrationTime._160ms IntegrationTime._320ms
      (Or.inl ⟨by decide, by decide, rfl⟩)⟩

end Veml
